import Mathlib

/-!
Shallow embedding of `compiler/router/grid.py`: a two-layer sparse routing
map (`grid` class) whose cells can be blocked, lie on a path, or belong to
the source/target terminal sets.  Python dictionaries become functions into
`Option`, Python sets become `Finset`, floats become `ℚ`, and the
scalar-or-collection calling convention of the mutators becomes a scalar
function plus an explicit list version.
-/

/-- Modelled from the spec: the `vector3d` class is not part of the sources
given here; the spec describes grid coordinates as ordered integer triples
(x, y, layer) with structural equality and hashing, used as mapping keys. -/
structure vector3d where
  x : ℤ
  y : ℤ
  z : ℤ
deriving DecidableEq, Repr

/-- Modelled from the spec: the `grid_cell` class is not part of the sources
given here; the spec describes it as a plain record of four independent
boolean flags, created with all flags false on lazy materialization. -/
structure grid_cell where
  blocked : Bool := false
  path : Bool := false
  source : Bool := false
  target : Bool := false
deriving DecidableEq, Repr

/-- Modelled from the spec: `vector3d.round` rounds each scaled physical
coordinate to the nearest integer grid unit.  `rnd q` is the integer nearest
to `q` (halves rounded up), computed with a floor division. -/
def rnd (q : ℚ) : ℤ := Int.fdiv (2 * q.num + (q.den : ℤ)) (2 * (q.den : ℤ))

/-- Embedding of the `grid` object state: the cached `source`/`target`
coordinate sets, the track width and the derived per-axis widths and scale
factors, the rounded integer bounds, and the sparse coordinate-to-cell map
(`none` = never materialized). -/
structure grid where
  source : Finset vector3d
  target : Finset vector3d
  track_width : ℚ
  track_widths : ℚ × ℚ × ℚ
  track_factor : ℚ × ℚ × ℚ
  ll : vector3d
  ur : vector3d
  map : vector3d → Option grid_cell

/-- Embedding of `grid.__init__(ll, ur, track_width)`.  The physical corner
points are passed as rationals.  Python computes `1 / track_width`, which
raises `ZeroDivisionError` exactly when `track_width == 0`; that failure is
the `none` branch.  Otherwise the bounds are scaled by the factor triple
`(1/track_width, 1/track_width, 1.0)` componentwise and rounded, the z
component starting from 0, and the map starts empty. -/
def grid_init (llx lly urx ury : ℚ) (track_width : ℚ) : Option grid :=
  if track_width = 0 then none
  else
    some
      { source := ∅
        target := ∅
        track_width := track_width
        track_widths := ⟨track_width, track_width, 1⟩
        track_factor := ⟨1 / track_width, 1 / track_width, 1⟩
        ll := ⟨rnd (llx * (1 / track_width)), rnd (lly * (1 / track_width)), rnd (0 * 1)⟩
        ur := ⟨rnd (urx * (1 / track_width)), rnd (ury * (1 / track_width)), rnd (0 * 1)⟩
        map := fun _ => none }

/-- Python `range(a, b, 1)` over integers: `[a, a+1, ..., b-1]`. -/
def intRange (a b : ℤ) : List ℤ := (List.range (b - a).toNat).map (fun i => a + i)

/-- Embedding of `grid.add_map(n)` for a scalar coordinate: create a fresh
all-false cell at `n` if `n` is not yet a key of the map. -/
def grid.add_map (g : grid) (n : vector3d) : grid :=
  if (g.map n).isSome then g
  else { g with map := fun c => if c = n then some {} else g.map c }

/-- Collection form of `grid.add_map`: recurse elementwise. -/
def grid.add_map_list (g : grid) (l : List vector3d) : grid :=
  l.foldl grid.add_map g

/-- Helper for the Python statement `self.map[n].attr = value`: rewrite the
cell stored at `n` (a no-op when `n` is absent, which never happens after
`add_map`). -/
def grid.update_cell (g : grid) (n : vector3d) (f : grid_cell → grid_cell) : grid :=
  { g with map := fun c => if c = n then (g.map c).map f else g.map c }

/-- The cell visible at `n`: the stored cell, or the all-false default for a
coordinate that was never materialized. -/
def grid.cell_at (g : grid) (n : vector3d) : grid_cell :=
  (g.map n).getD {}

/-- Embedding of `grid.set_blocked(n, value)` for a scalar coordinate:
materialize then assign the `blocked` flag. -/
def grid.set_blocked (g : grid) (n : vector3d) (value : Bool) : grid :=
  (g.add_map n).update_cell n (fun cell => { cell with blocked := value })

/-- Collection form of `grid.set_blocked`: recurse elementwise. -/
def grid.set_blocked_list (g : grid) (l : List vector3d) (value : Bool) : grid :=
  l.foldl (fun g c => g.set_blocked c value) g

/-- Embedding of `grid.is_blocked(n)` for a scalar coordinate: materialize
(side effect on the returned state) and read the `blocked` flag. -/
def grid.is_blocked (g : grid) (n : vector3d) : grid × Bool :=
  let g1 := g.add_map n
  (g1, (g1.cell_at n).blocked)

/-- Collection form of `grid.is_blocked`: return true at the first blocked
element, threading the materialization side effects; the `for/else` falls
through to `return False` when no element is blocked. -/
def grid.is_blocked_list : grid → List vector3d → grid × Bool
  | g, [] => (g, false)
  | g, n :: rest =>
    let p := g.is_blocked n
    if p.2 then (p.1, true) else p.1.is_blocked_list rest

/-- Embedding of `grid.set_path(n, value)` for a scalar coordinate. -/
def grid.set_path (g : grid) (n : vector3d) (value : Bool) : grid :=
  (g.add_map n).update_cell n (fun cell => { cell with path := value })

/-- Collection form of `grid.set_path`: recurse elementwise. -/
def grid.set_path_list (g : grid) (l : List vector3d) (value : Bool) : grid :=
  l.foldl (fun g c => g.set_path c value) g

/-- Embedding of `grid.clear_blockages()`: reset `blocked` on every existing
cell of the map. -/
def grid.clear_blockages (g : grid) : grid :=
  { g with map := fun c => (g.map c).map (fun cell => { cell with blocked := false }) }

/-- Embedding of `grid.clear_source()`: reset `source` on every existing
cell, then replace the cached source set by the empty set. -/
def grid.clear_source (g : grid) : grid :=
  { g with map := fun c => (g.map c).map (fun cell => { cell with source := false }),
           source := ∅ }

/-- Embedding of `grid.set_source(n)` for a scalar coordinate: materialize,
set `source := True`, force `blocked := False`, and add `n` to the cached
source set. -/
def grid.set_source (g : grid) (n : vector3d) : grid :=
  let g1 := (g.add_map n).update_cell n (fun cell => { cell with source := true })
  let g2 := g1.update_cell n (fun cell => { cell with blocked := false })
  { g2 with source := insert n g2.source }

/-- Collection form of `grid.set_source`: recurse elementwise. -/
def grid.set_source_list (g : grid) (l : List vector3d) : grid :=
  l.foldl grid.set_source g

/-- Embedding of `grid.clear_target()`: reset `target` on every existing
cell, then replace the cached target set by the empty set. -/
def grid.clear_target (g : grid) : grid :=
  { g with map := fun c => (g.map c).map (fun cell => { cell with target := false }),
           target := ∅ }

/-- Embedding of `grid.set_target(n)` for a scalar coordinate: materialize,
set `target := True`, force `blocked := False`, and add `n` to the cached
target set. -/
def grid.set_target (g : grid) (n : vector3d) : grid :=
  let g1 := (g.add_map n).update_cell n (fun cell => { cell with target := true })
  let g2 := g1.update_cell n (fun cell => { cell with blocked := false })
  { g2 with target := insert n g2.target }

/-- Collection form of `grid.set_target`: recurse elementwise. -/
def grid.set_target_list (g : grid) (l : List vector3d) : grid :=
  l.foldl grid.set_target g

/-- Embedding of `grid.add_source(track_list)`: iterate `set_source` over an
explicit list (the `debug.info` calls are diagnostic logging only). -/
def grid.add_source (g : grid) (track_list : List vector3d) : grid :=
  g.set_source_list track_list

/-- Embedding of `grid.add_target(track_list)`: iterate `set_target` over an
explicit list. -/
def grid.add_target (g : grid) (track_list : List vector3d) : grid :=
  g.set_target_list track_list

/-- The `perimeter_list` built inside `grid.add_perimeter_target(side)`:
left/right columns sweep y over `range(ll.y, ur.y)` at `x = ll.x` / `ur.x`,
bottom/top rows sweep x over `range(ll.x, ur.x)` at `y = ll.y` / `ur.y`,
appending the layer-0 then the layer-1 coordinate at each step. -/
def grid.perimeter_list (g : grid) (side : String) : List vector3d :=
  (if side = "all" ∨ side = "left" then
      (intRange g.ll.y g.ur.y).flatMap (fun y => [⟨g.ll.x, y, 0⟩, ⟨g.ll.x, y, 1⟩])
    else []) ++
  (if side = "all" ∨ side = "right" then
      (intRange g.ll.y g.ur.y).flatMap (fun y => [⟨g.ur.x, y, 0⟩, ⟨g.ur.x, y, 1⟩])
    else []) ++
  (if side = "all" ∨ side = "bottom" then
      (intRange g.ll.x g.ur.x).flatMap (fun x => [⟨x, g.ll.y, 0⟩, ⟨x, g.ll.y, 1⟩])
    else []) ++
  (if side = "all" ∨ side = "top" then
      (intRange g.ll.x g.ur.x).flatMap (fun x => [⟨x, g.ur.y, 0⟩, ⟨x, g.ur.y, 1⟩])
    else [])

/-- Embedding of `grid.add_perimeter_target(side)`: register the enumerated
perimeter list as targets via the collection form of `set_target`. -/
def grid.add_perimeter_target (g : grid) (side : String) : grid :=
  g.set_target_list (g.perimeter_list side)

/-- Embedding of `grid.is_target(point)`: membership in the cached target
set; the only query that does not materialize a cell. -/
def grid.is_target (g : grid) (point : vector3d) : Bool :=
  point ∈ g.target

/-- Embedding of `grid.add_all_grids()`: materialize both layers of every
in-bounds (x, y). -/
def grid.add_all_grids (g : grid) : grid :=
  (intRange g.ll.x g.ur.x).foldl
    (fun g x =>
      (intRange g.ll.y g.ur.y).foldl
        (fun g y => (g.add_map ⟨x, y, 0⟩).add_map ⟨x, y, 1⟩) g)
    g

/-- Embedding of `grid.block_path(path)`: the path collaborator applies the
grid mutators elementwise over its constituent coordinates, so with the path
represented by that coordinate list, `path.set_path(False)` then
`path.set_blocked(True)`. -/
def grid.block_path (g : grid) (path : List vector3d) : grid :=
  (g.set_path_list path false).set_blocked_list path true

/-- Embedding of the class-level cost constant `grid.VIA_COST`. -/
def grid.VIA_COST : ℕ := 2

/-- Embedding of the class-level cost constant `grid.NONPREFERRED_COST`. -/
def grid.NONPREFERRED_COST : ℕ := 4

/-- Embedding of the class-level cost constant `grid.PREFERRED_COST`. -/
def grid.PREFERRED_COST : ℕ := 1

/-- Argument of a dual scalar-or-collection public mutator: Python
dispatches on `isinstance(n, vector3d)`. -/
inductive Arg where
  | scalar (c : vector3d)
  | coll (l : List vector3d)

/-- One call to a public operation of the grid, for reasoning about
arbitrary operation sequences. -/
inductive Op where
  | set_blocked (n : Arg) (value : Bool)
  | is_blocked (n : Arg)
  | set_path (n : Arg) (value : Bool)
  | set_source (n : Arg)
  | set_target (n : Arg)
  | add_source (l : List vector3d)
  | add_target (l : List vector3d)
  | add_perimeter_target (side : String)
  | clear_source
  | clear_target
  | clear_blockages
  | add_map (n : Arg)
  | add_all_grids
  | block_path (p : List vector3d)

/-- State effect of one public operation (for a query this is the
materialization side effect; its returned value is discarded). -/
def Op.apply (g : grid) : Op → grid
  | .set_blocked (.scalar c) v => g.set_blocked c v
  | .set_blocked (.coll l) v => g.set_blocked_list l v
  | .is_blocked (.scalar c) => (g.is_blocked c).1
  | .is_blocked (.coll l) => (g.is_blocked_list l).1
  | .set_path (.scalar c) v => g.set_path c v
  | .set_path (.coll l) v => g.set_path_list l v
  | .set_source (.scalar c) => g.set_source c
  | .set_source (.coll l) => g.set_source_list l
  | .set_target (.scalar c) => g.set_target c
  | .set_target (.coll l) => g.set_target_list l
  | .add_source l => g.add_source l
  | .add_target l => g.add_target l
  | .add_perimeter_target side => g.add_perimeter_target side
  | .clear_source => g.clear_source
  | .clear_target => g.clear_target
  | .clear_blockages => g.clear_blockages
  | .add_map (.scalar c) => g.add_map c
  | .add_map (.coll l) => g.add_map_list l
  | .add_all_grids => g.add_all_grids
  | .block_path p => g.block_path p

/-- Run a sequence of public operations from a starting state. -/
def runOps (g : grid) (ops : List Op) : grid :=
  ops.foldl Op.apply g

/-- The cache-consistency invariant: a coordinate is in the cached source
set iff its cell exists with `source = true`, and likewise for `target`. -/
def consistent (g : grid) : Prop :=
  ∀ c : vector3d,
    (c ∈ g.source ↔ ∃ cell, g.map c = some cell ∧ cell.source = true) ∧
    (c ∈ g.target ↔ ∃ cell, g.map c = some cell ∧ cell.target = true)

/-! Basic lemmas about materialization and cell updates. -/

lemma grid.source_add_map (g : grid) (n : vector3d) : (g.add_map n).source = g.source := by
  unfold grid.add_map; split <;> rfl

lemma grid.target_add_map (g : grid) (n : vector3d) : (g.add_map n).target = g.target := by
  unfold grid.add_map; split <;> rfl

lemma grid.cell_at_add_map (g : grid) (n c : vector3d) :
    (g.add_map n).cell_at c = g.cell_at c := by
  unfold grid.add_map grid.cell_at
  split
  · rfl
  · rename_i hn
    by_cases hc : c = n
    · subst hc
      simp only [if_pos rfl]
      rw [Option.not_isSome_iff_eq_none] at hn
      simp [hn]
    · simp only [if_neg hc]

lemma grid.isSome_map_add_map_self (g : grid) (n : vector3d) :
    ((g.add_map n).map n).isSome := by
  unfold grid.add_map
  split
  · assumption
  · simp

lemma grid.cell_at_update_cell_self (g : grid) (n : vector3d) (f : grid_cell → grid_cell)
    (h : (g.map n).isSome) : (g.update_cell n f).cell_at n = f (g.cell_at n) := by
  unfold grid.update_cell grid.cell_at
  rcases Option.isSome_iff_exists.mp h with ⟨cell, hc⟩
  simp [hc]

lemma grid.cell_at_update_cell_other (g : grid) (n c : vector3d)
    (f : grid_cell → grid_cell) (h : c ≠ n) :
    (g.update_cell n f).cell_at c = g.cell_at c := by
  unfold grid.update_cell grid.cell_at
  simp [if_neg h]

/-! Per-operation cell and set effects. -/

lemma grid.source_set_blocked (g : grid) (n : vector3d) (v : Bool) :
    (g.set_blocked n v).source = g.source := by
  unfold grid.set_blocked grid.update_cell
  simp [grid.source_add_map]

lemma grid.target_set_blocked (g : grid) (n : vector3d) (v : Bool) :
    (g.set_blocked n v).target = g.target := by
  unfold grid.set_blocked grid.update_cell
  simp [grid.target_add_map]

lemma grid.cell_at_set_blocked (g : grid) (n c : vector3d) (v : Bool) :
    (g.set_blocked n v).cell_at c =
      if c = n then { g.cell_at c with blocked := v } else g.cell_at c := by
  unfold grid.set_blocked
  by_cases hc : c = n
  · subst hc
    rw [if_pos rfl, grid.cell_at_update_cell_self _ _ _ (g.isSome_map_add_map_self c),
      grid.cell_at_add_map]
  · rw [if_neg hc, grid.cell_at_update_cell_other _ _ _ _ hc, grid.cell_at_add_map]

lemma grid.source_set_path (g : grid) (n : vector3d) (v : Bool) :
    (g.set_path n v).source = g.source := by
  unfold grid.set_path grid.update_cell
  simp [grid.source_add_map]

lemma grid.target_set_path (g : grid) (n : vector3d) (v : Bool) :
    (g.set_path n v).target = g.target := by
  unfold grid.set_path grid.update_cell
  simp [grid.target_add_map]

lemma grid.cell_at_set_path (g : grid) (n c : vector3d) (v : Bool) :
    (g.set_path n v).cell_at c =
      if c = n then { g.cell_at c with path := v } else g.cell_at c := by
  unfold grid.set_path
  by_cases hc : c = n
  · subst hc
    rw [if_pos rfl, grid.cell_at_update_cell_self _ _ _ (g.isSome_map_add_map_self c),
      grid.cell_at_add_map]
  · rw [if_neg hc, grid.cell_at_update_cell_other _ _ _ _ hc, grid.cell_at_add_map]

lemma grid.source_set_source (g : grid) (n : vector3d) :
    (g.set_source n).source = insert n g.source := by
  unfold grid.set_source grid.update_cell
  simp [grid.source_add_map]

lemma grid.target_set_source (g : grid) (n : vector3d) :
    (g.set_source n).target = g.target := by
  unfold grid.set_source grid.update_cell
  simp [grid.target_add_map]

lemma grid.isSome_map_update_cell (g : grid) (n : vector3d) (f : grid_cell → grid_cell)
    (c : vector3d) : ((g.update_cell n f).map c).isSome = (g.map c).isSome := by
  unfold grid.update_cell
  by_cases hc : c = n <;> simp [hc]

lemma grid.cell_at_set_source (g : grid) (n c : vector3d) :
    (g.set_source n).cell_at c =
      if c = n then { g.cell_at c with source := true, blocked := false }
      else g.cell_at c := by
  unfold grid.set_source
  by_cases hc : c = n
  · subst hc
    have h1 : (((g.add_map c).update_cell c
        (fun cell => { cell with source := true })).map c).isSome := by
      rw [grid.isSome_map_update_cell]
      exact g.isSome_map_add_map_self c
    show (grid.update_cell _ _ _).cell_at c = _
    rw [if_pos rfl, grid.cell_at_update_cell_self _ _ _ h1,
      grid.cell_at_update_cell_self _ _ _ (g.isSome_map_add_map_self c),
      grid.cell_at_add_map]
  · show (grid.update_cell _ _ _).cell_at c = _
    rw [if_neg hc, grid.cell_at_update_cell_other _ _ _ _ hc,
      grid.cell_at_update_cell_other _ _ _ _ hc, grid.cell_at_add_map]

lemma grid.source_set_target (g : grid) (n : vector3d) :
    (g.set_target n).source = g.source := by
  unfold grid.set_target grid.update_cell
  simp [grid.source_add_map]

lemma grid.target_set_target (g : grid) (n : vector3d) :
    (g.set_target n).target = insert n g.target := by
  unfold grid.set_target grid.update_cell
  simp [grid.target_add_map]

lemma grid.cell_at_set_target (g : grid) (n c : vector3d) :
    (g.set_target n).cell_at c =
      if c = n then { g.cell_at c with target := true, blocked := false }
      else g.cell_at c := by
  unfold grid.set_target
  by_cases hc : c = n
  · subst hc
    have h1 : (((g.add_map c).update_cell c
        (fun cell => { cell with target := true })).map c).isSome := by
      rw [grid.isSome_map_update_cell]
      exact g.isSome_map_add_map_self c
    show (grid.update_cell _ _ _).cell_at c = _
    rw [if_pos rfl, grid.cell_at_update_cell_self _ _ _ h1,
      grid.cell_at_update_cell_self _ _ _ (g.isSome_map_add_map_self c),
      grid.cell_at_add_map]
  · show (grid.update_cell _ _ _).cell_at c = _
    rw [if_neg hc, grid.cell_at_update_cell_other _ _ _ _ hc,
      grid.cell_at_update_cell_other _ _ _ _ hc, grid.cell_at_add_map]

/-! Lemmas about the collection forms and the clearing operations. -/

lemma grid.cell_at_set_blocked_list (l : List vector3d) (g : grid) (c : vector3d) (v : Bool) :
    (g.set_blocked_list l v).cell_at c =
      if c ∈ l then { g.cell_at c with blocked := v } else g.cell_at c := by
  induction l generalizing g with
  | nil => simp [grid.set_blocked_list]
  | cons a l ih =>
    show ((g.set_blocked a v).set_blocked_list l v).cell_at c = _
    rw [ih, grid.cell_at_set_blocked]
    by_cases hl : c ∈ l
    · by_cases ha : c = a <;> simp [hl, ha]
    · by_cases ha : c = a <;> simp [hl, ha]

lemma grid.source_set_blocked_list (l : List vector3d) (g : grid) (v : Bool) :
    (g.set_blocked_list l v).source = g.source := by
  induction l generalizing g with
  | nil => rfl
  | cons a l ih =>
    show ((g.set_blocked a v).set_blocked_list l v).source = _
    rw [ih, grid.source_set_blocked]

lemma grid.target_set_blocked_list (l : List vector3d) (g : grid) (v : Bool) :
    (g.set_blocked_list l v).target = g.target := by
  induction l generalizing g with
  | nil => rfl
  | cons a l ih =>
    show ((g.set_blocked a v).set_blocked_list l v).target = _
    rw [ih, grid.target_set_blocked]

lemma grid.cell_at_set_path_list (l : List vector3d) (g : grid) (c : vector3d) (v : Bool) :
    (g.set_path_list l v).cell_at c =
      if c ∈ l then { g.cell_at c with path := v } else g.cell_at c := by
  induction l generalizing g with
  | nil => simp [grid.set_path_list]
  | cons a l ih =>
    show ((g.set_path a v).set_path_list l v).cell_at c = _
    rw [ih, grid.cell_at_set_path]
    by_cases hl : c ∈ l
    · by_cases ha : c = a <;> simp [hl, ha]
    · by_cases ha : c = a <;> simp [hl, ha]

lemma grid.source_set_path_list (l : List vector3d) (g : grid) (v : Bool) :
    (g.set_path_list l v).source = g.source := by
  induction l generalizing g with
  | nil => rfl
  | cons a l ih =>
    show ((g.set_path a v).set_path_list l v).source = _
    rw [ih, grid.source_set_path]

lemma grid.target_set_path_list (l : List vector3d) (g : grid) (v : Bool) :
    (g.set_path_list l v).target = g.target := by
  induction l generalizing g with
  | nil => rfl
  | cons a l ih =>
    show ((g.set_path a v).set_path_list l v).target = _
    rw [ih, grid.target_set_path]

lemma grid.mem_target_set_target_list (l : List vector3d) (g : grid) (c : vector3d) :
    c ∈ (g.set_target_list l).target ↔ c ∈ l ∨ c ∈ g.target := by
  induction l generalizing g with
  | nil => simp [grid.set_target_list]
  | cons a l ih =>
    show c ∈ ((g.set_target a).set_target_list l).target ↔ _
    rw [ih, grid.target_set_target]
    simp [List.mem_cons, Finset.mem_insert]
    tauto

lemma grid.cell_at_clear_source (g : grid) (c : vector3d) :
    (g.clear_source).cell_at c = { g.cell_at c with source := false } := by
  unfold grid.clear_source grid.cell_at
  rcases hm : g.map c with _ | cell <;> simp [hm]

lemma grid.cell_at_clear_target (g : grid) (c : vector3d) :
    (g.clear_target).cell_at c = { g.cell_at c with target := false } := by
  unfold grid.clear_target grid.cell_at
  rcases hm : g.map c with _ | cell <;> simp [hm]

lemma grid.cell_at_clear_blockages (g : grid) (c : vector3d) :
    (g.clear_blockages).cell_at c = { g.cell_at c with blocked := false } := by
  unfold grid.clear_blockages grid.cell_at
  rcases hm : g.map c with _ | cell <;> simp [hm]

lemma grid.is_blocked_state (g : grid) (n : vector3d) :
    (g.is_blocked n).1 = g.add_map n := rfl

lemma grid.is_blocked_val (g : grid) (n : vector3d) :
    (g.is_blocked n).2 = (g.cell_at n).blocked := by
  show ((g.add_map n).cell_at n).blocked = _
  rw [grid.cell_at_add_map]

lemma grid.is_blocked_list_val (l : List vector3d) (g : grid) :
    (g.is_blocked_list l).2 = l.any (fun c => (g.cell_at c).blocked) := by
  induction l generalizing g with
  | nil => rfl
  | cons a l ih =>
    show (if (g.is_blocked a).2 then ((g.is_blocked a).1, true)
      else (g.is_blocked a).1.is_blocked_list l).2 = _
    rw [grid.is_blocked_val, grid.is_blocked_state]
    by_cases hb : (g.cell_at a).blocked
    · simp [hb]
    · simp only [Bool.not_eq_true] at hb
      rw [hb]
      simp only [Bool.false_eq_true, if_false, ih, List.any_cons, hb, Bool.false_or]
      congr 1
      funext c
      rw [grid.cell_at_add_map]

/-! The cache-consistency invariant and its preservation by every public
operation. -/

lemma grid.exists_cell_source_iff (g : grid) (c : vector3d) :
    (∃ cell, g.map c = some cell ∧ cell.source = true) ↔ (g.cell_at c).source = true := by
  unfold grid.cell_at
  rcases hm : g.map c with _ | cell <;> simp [hm]

lemma grid.exists_cell_target_iff (g : grid) (c : vector3d) :
    (∃ cell, g.map c = some cell ∧ cell.target = true) ↔ (g.cell_at c).target = true := by
  unfold grid.cell_at
  rcases hm : g.map c with _ | cell <;> simp [hm]

lemma consistent_iff_cell (g : grid) :
    consistent g ↔ ∀ c : vector3d,
      (c ∈ g.source ↔ (g.cell_at c).source = true) ∧
      (c ∈ g.target ↔ (g.cell_at c).target = true) := by
  unfold consistent
  constructor
  · intro h c
    rw [← grid.exists_cell_source_iff, ← grid.exists_cell_target_iff]
    exact h c
  · intro h c
    rw [grid.exists_cell_source_iff, grid.exists_cell_target_iff]
    exact h c

lemma consistent_congr {g1 g2 : grid} (hs : g2.source = g1.source)
    (ht : g2.target = g1.target)
    (hcs : ∀ c, (g2.cell_at c).source = (g1.cell_at c).source)
    (hct : ∀ c, (g2.cell_at c).target = (g1.cell_at c).target)
    (h : consistent g1) : consistent g2 := by
  rw [consistent_iff_cell] at h ⊢
  intro c
  rw [hs, ht, hcs, hct]
  exact h c

lemma consistent_add_map {g : grid} (n : vector3d) (h : consistent g) :
    consistent (g.add_map n) :=
  consistent_congr (g.source_add_map n) (g.target_add_map n)
    (fun c => by rw [grid.cell_at_add_map]) (fun c => by rw [grid.cell_at_add_map]) h

lemma consistent_set_blocked {g : grid} (n : vector3d) (v : Bool) (h : consistent g) :
    consistent (g.set_blocked n v) := by
  refine consistent_congr (g.source_set_blocked n v) (g.target_set_blocked n v)
    (fun c => ?_) (fun c => ?_) h <;>
  · rw [grid.cell_at_set_blocked]
    by_cases hc : c = n <;> simp [hc]

lemma consistent_set_path {g : grid} (n : vector3d) (v : Bool) (h : consistent g) :
    consistent (g.set_path n v) := by
  refine consistent_congr (g.source_set_path n v) (g.target_set_path n v)
    (fun c => ?_) (fun c => ?_) h <;>
  · rw [grid.cell_at_set_path]
    by_cases hc : c = n <;> simp [hc]

lemma consistent_set_source {g : grid} (n : vector3d) (h : consistent g) :
    consistent (g.set_source n) := by
  rw [consistent_iff_cell] at h ⊢
  intro c
  rw [grid.source_set_source, grid.target_set_source, grid.cell_at_set_source]
  by_cases hc : c = n
  · subst hc
    simp [(h c).2]
  · simp only [if_neg hc, Finset.mem_insert, hc, false_or]
    exact h c

lemma consistent_set_target {g : grid} (n : vector3d) (h : consistent g) :
    consistent (g.set_target n) := by
  rw [consistent_iff_cell] at h ⊢
  intro c
  rw [grid.source_set_target, grid.target_set_target, grid.cell_at_set_target]
  by_cases hc : c = n
  · subst hc
    simp [(h c).1]
  · simp only [if_neg hc, Finset.mem_insert, hc, false_or]
    exact h c

lemma consistent_clear_source {g : grid} (h : consistent g) :
    consistent (g.clear_source) := by
  rw [consistent_iff_cell] at h ⊢
  intro c
  rw [grid.cell_at_clear_source]
  have htg : (g.clear_source).target = g.target := rfl
  have hsr : (g.clear_source).source = ∅ := rfl
  rw [htg, hsr]
  simp [(h c).2]

lemma consistent_clear_target {g : grid} (h : consistent g) :
    consistent (g.clear_target) := by
  rw [consistent_iff_cell] at h ⊢
  intro c
  rw [grid.cell_at_clear_target]
  have hsr : (g.clear_target).source = g.source := rfl
  have htg : (g.clear_target).target = ∅ := rfl
  rw [htg, hsr]
  simp [(h c).1]

lemma consistent_clear_blockages {g : grid} (h : consistent g) :
    consistent (g.clear_blockages) := by
  refine @consistent_congr g g.clear_blockages rfl rfl (fun c => ?_) (fun c => ?_) h <;>
    rw [grid.cell_at_clear_blockages]

lemma consistent_foldl {α : Type} (f : grid → α → grid)
    (hf : ∀ g a, consistent g → consistent (f g a)) :
    ∀ (l : List α) (g : grid), consistent g → consistent (l.foldl f g) := by
  intro l
  induction l with
  | nil => exact fun g h => h
  | cons a l ih => exact fun g h => ih (f g a) (hf g a h)

lemma consistent_set_blocked_list {g : grid} (l : List vector3d) (v : Bool)
    (h : consistent g) : consistent (g.set_blocked_list l v) :=
  consistent_foldl _ (fun g c => consistent_set_blocked c v) l g h

lemma consistent_set_path_list {g : grid} (l : List vector3d) (v : Bool)
    (h : consistent g) : consistent (g.set_path_list l v) :=
  consistent_foldl _ (fun g c => consistent_set_path c v) l g h

lemma consistent_set_source_list {g : grid} (l : List vector3d)
    (h : consistent g) : consistent (g.set_source_list l) :=
  consistent_foldl _ (fun g c => consistent_set_source c) l g h

lemma consistent_set_target_list {g : grid} (l : List vector3d)
    (h : consistent g) : consistent (g.set_target_list l) :=
  consistent_foldl _ (fun g c => consistent_set_target c) l g h

lemma consistent_add_map_list {g : grid} (l : List vector3d)
    (h : consistent g) : consistent (g.add_map_list l) :=
  consistent_foldl _ (fun g c => consistent_add_map c) l g h

lemma consistent_is_blocked_list {g : grid} (l : List vector3d)
    (h : consistent g) : consistent (g.is_blocked_list l).1 := by
  induction l generalizing g with
  | nil => exact h
  | cons a l ih =>
    show consistent (if (g.is_blocked a).2 then ((g.is_blocked a).1, true)
      else (g.is_blocked a).1.is_blocked_list l).1
    rw [grid.is_blocked_state]
    split
    · exact consistent_add_map a h
    · exact ih (consistent_add_map a h)

lemma consistent_add_all_grids {g : grid} (h : consistent g) :
    consistent (g.add_all_grids) := by
  unfold grid.add_all_grids
  refine consistent_foldl _ (fun g x hg => ?_) _ g h
  exact consistent_foldl _ (fun g y hg => consistent_add_map _ (consistent_add_map _ hg)) _ g hg

lemma consistent_block_path {g : grid} (p : List vector3d) (h : consistent g) :
    consistent (g.block_path p) :=
  consistent_set_blocked_list p true (consistent_set_path_list p false h)

lemma consistent_apply {g : grid} (op : Op) (h : consistent g) :
    consistent (op.apply g) := by
  cases op with
  | set_blocked n v =>
    cases n with
    | scalar c => exact consistent_set_blocked c v h
    | coll l => exact consistent_set_blocked_list l v h
  | is_blocked n =>
    cases n with
    | scalar c => exact consistent_add_map c h
    | coll l => exact consistent_is_blocked_list l h
  | set_path n v =>
    cases n with
    | scalar c => exact consistent_set_path c v h
    | coll l => exact consistent_set_path_list l v h
  | set_source n =>
    cases n with
    | scalar c => exact consistent_set_source c h
    | coll l => exact consistent_set_source_list l h
  | set_target n =>
    cases n with
    | scalar c => exact consistent_set_target c h
    | coll l => exact consistent_set_target_list l h
  | add_source l => exact consistent_set_source_list l h
  | add_target l => exact consistent_set_target_list l h
  | add_perimeter_target side => exact consistent_set_target_list _ h
  | clear_source => exact consistent_clear_source h
  | clear_target => exact consistent_clear_target h
  | clear_blockages => exact consistent_clear_blockages h
  | add_map n =>
    cases n with
    | scalar c => exact consistent_add_map c h
    | coll l => exact consistent_add_map_list l h
  | add_all_grids => exact consistent_add_all_grids h
  | block_path p => exact consistent_block_path p h

lemma consistent_runOps {g : grid} (ops : List Op) (h : consistent g) :
    consistent (runOps g ops) :=
  consistent_foldl _ (fun g op => consistent_apply op) ops g h

lemma consistent_of_init {llx lly urx ury tw : ℚ} {g0 : grid}
    (h : grid_init llx lly urx ury tw = some g0) : consistent g0 := by
  unfold grid_init at h
  split at h
  · exact absurd h (by simp)
  · rw [Option.some.injEq] at h
    subst h
    intro c
    simp [grid.cell_at]

lemma grid.isSome_map_clear_source (g : grid) (c : vector3d) :
    ((g.clear_source).map c).isSome = (g.map c).isSome := by
  unfold grid.clear_source
  cases hm : g.map c <;> simp [hm]

lemma grid.isSome_map_clear_target (g : grid) (c : vector3d) :
    ((g.clear_target).map c).isSome = (g.map c).isSome := by
  unfold grid.clear_target
  cases hm : g.map c <;> simp [hm]

/-! Concrete sample grids and evaluation lemmas. -/

/-- A fresh empty grid with unit track width and degenerate bounds, used to
instantiate universally quantified theorems at a concrete state. -/
def defaultGrid : grid :=
  { source := ∅, target := ∅, track_width := 1, track_widths := ⟨1, 1, 1⟩,
    track_factor := ⟨1, 1, 1⟩, ll := ⟨0, 0, 0⟩, ur := ⟨0, 0, 0⟩, map := fun _ => none }

/-- The grid with computed integer bounds ll = (0,0,0) and ur = (4,4,0),
as produced by `grid(vector3d(0,0,0), vector3d(4,4,0), 1)`. -/
def g4ex : grid :=
  { source := ∅, target := ∅, track_width := 1, track_widths := ⟨1, 1, 1⟩,
    track_factor := ⟨1, 1, 1⟩, ll := ⟨0, 0, 0⟩, ur := ⟨4, 4, 0⟩, map := fun _ => none }

lemma grid.is_target_iff (g : grid) (p : vector3d) : g.is_target p = true ↔ p ∈ g.target := by
  unfold grid.is_target
  exact decide_eq_true_iff

lemma grid_init_unit : grid_init 0 0 4 4 1 = some g4ex := by
  unfold grid_init
  rw [if_neg (by norm_num)]
  simp only [g4ex]
  norm_num [rnd]
  decide

set_option maxRecDepth 8000 in
lemma perimeter_all_eq : g4ex.perimeter_list "all" =
    [⟨0, 0, 0⟩, ⟨0, 0, 1⟩, ⟨0, 1, 0⟩, ⟨0, 1, 1⟩, ⟨0, 2, 0⟩, ⟨0, 2, 1⟩, ⟨0, 3, 0⟩, ⟨0, 3, 1⟩,
     ⟨4, 0, 0⟩, ⟨4, 0, 1⟩, ⟨4, 1, 0⟩, ⟨4, 1, 1⟩, ⟨4, 2, 0⟩, ⟨4, 2, 1⟩, ⟨4, 3, 0⟩, ⟨4, 3, 1⟩,
     ⟨0, 0, 0⟩, ⟨0, 0, 1⟩, ⟨1, 0, 0⟩, ⟨1, 0, 1⟩, ⟨2, 0, 0⟩, ⟨2, 0, 1⟩, ⟨3, 0, 0⟩, ⟨3, 0, 1⟩,
     ⟨0, 4, 0⟩, ⟨0, 4, 1⟩, ⟨1, 4, 0⟩, ⟨1, 4, 1⟩, ⟨2, 4, 0⟩, ⟨2, 4, 1⟩, ⟨3, 4, 0⟩, ⟨3, 4, 1⟩] := by
  decide

/-! Claim theorems. -/

/-- C1: starting from a freshly constructed grid, after any sequence of the
public operations, a coordinate is in the cached source set iff its cell
exists in the map with `source = true`, and likewise for `target`. -/
theorem spec_c1_cache_consistency (llx lly urx ury tw : ℚ) (g0 : grid)
    (h : grid_init llx lly urx ury tw = some g0) (ops : List Op) :
    consistent (runOps g0 ops) :=
  consistent_runOps ops (consistent_of_init h)

/-- Witness for C1: a freshly constructed 4x4 unit grid stays consistent
under a concrete sequence of public operations. -/
theorem spec_c1_cache_consistency_witness :
    grid_init 0 0 4 4 1 = some g4ex ∧
    consistent (runOps g4ex
      [Op.set_blocked (Arg.scalar ⟨1, 1, 0⟩) true, Op.set_source (Arg.scalar ⟨1, 1, 0⟩),
       Op.add_perimeter_target "all", Op.is_blocked (Arg.coll [⟨2, 2, 0⟩, ⟨1, 1, 0⟩]),
       Op.clear_target, Op.block_path [⟨0, 1, 0⟩, ⟨1, 1, 0⟩]]) :=
  ⟨grid_init_unit, spec_c1_cache_consistency 0 0 4 4 1 g4ex grid_init_unit _⟩

set_option maxRecDepth 8000 in
/-- C2 counterexample: the claim demands that every coordinate with
`0 <= x, y <= 4`, layer in {0, 1} and `x ∈ {0,4}` or `y ∈ {0,4}` be a target
after `add_perimeter_target("all")` on the 4x4 grid, but the corner
(4, 4, 0) satisfies those conditions and is not registered, because each
perimeter sweep excludes `ur`. -/
theorem spec_c2_perimeter_counterexample :
    ¬ (∀ x y layer : ℤ, 0 ≤ x → x ≤ 4 → 0 ≤ y → y ≤ 4 → (layer = 0 ∨ layer = 1) →
        (x = 0 ∨ x = 4 ∨ y = 0 ∨ y = 4) →
        (g4ex.add_perimeter_target "all").is_target ⟨x, y, layer⟩ = true) := by
  intro h
  have h44 := h 4 4 0 (by norm_num) (by norm_num) (by norm_num) (by norm_num)
    (Or.inl rfl) (by norm_num)
  have hf : (g4ex.add_perimeter_target "all").is_target ⟨4, 4, 0⟩ = false := by decide
  rw [h44] at hf
  simp at hf

set_option maxRecDepth 8000 in
/-- C2 amended: on the grid with computed bounds ll = (0,0,0), ur = (4,4,0),
`add_perimeter_target("all")` registers as targets exactly the coordinates
(x, y, layer) with layer in {0, 1} and either `x ∈ {0,4}` with `0 <= y <= 3`
or `y ∈ {0,4}` with `0 <= x <= 3` — every perimeter coordinate except the
corner (4, 4, layer), since each sweep excludes `ur`; in particular
`is_target((2,0,0)) == true` and `is_target((2,2,0)) == false`. -/
theorem spec_c2_perimeter_amended :
    grid_init 0 0 4 4 1 = some g4ex ∧ g4ex.ll = ⟨0, 0, 0⟩ ∧ g4ex.ur = ⟨4, 4, 0⟩ ∧
    (∀ x y layer : ℤ,
      (g4ex.add_perimeter_target "all").is_target ⟨x, y, layer⟩ = true ↔
        ((layer = 0 ∨ layer = 1) ∧
          (((x = 0 ∨ x = 4) ∧ 0 ≤ y ∧ y ≤ 3) ∨ ((y = 0 ∨ y = 4) ∧ 0 ≤ x ∧ x ≤ 3)))) ∧
    (g4ex.add_perimeter_target "all").is_target ⟨2, 0, 0⟩ = true ∧
    (g4ex.add_perimeter_target "all").is_target ⟨2, 2, 0⟩ = false := by
  refine ⟨grid_init_unit, rfl, rfl, ?_, by decide, by decide⟩
  intro x y layer
  rw [grid.is_target_iff, grid.add_perimeter_target, grid.mem_target_set_target_list,
    perimeter_all_eq]
  have ht : g4ex.target = ∅ := rfl
  rw [ht]
  simp only [List.mem_cons, List.not_mem_nil, or_false, Finset.not_mem_empty,
    vector3d.mk.injEq]
  constructor
  · intro h
    omega
  · rintro ⟨hl, hxy⟩
    rcases hxy with ⟨hx, hy0, hy3⟩ | ⟨hy, hx0, hx3⟩
    · interval_cases y <;> rcases hx with rfl | rfl <;> rcases hl with rfl | rfl <;> norm_num
    · interval_cases x <;> rcases hy with rfl | rfl <;> rcases hl with rfl | rfl <;> norm_num

/-- C3: immediately after `set_source(c)` the coordinate reads unblocked,
whatever the prior state was, and the same holds for `set_target(c)`. -/
theorem spec_c3_terminal_overrides_blockage (g : grid) (c : vector3d) :
    ((g.set_source c).is_blocked c).2 = false ∧
    ((g.set_target c).is_blocked c).2 = false := by
  rw [grid.is_blocked_val, grid.is_blocked_val, grid.cell_at_set_source,
    grid.cell_at_set_target]
  simp

/-- C4: after `block_path(P)` every coordinate of the path is blocked and
its transient path flag is false. -/
theorem spec_c4_block_path (g : grid) (p : List vector3d) (c : vector3d) (h : c ∈ p) :
    ((g.block_path p).is_blocked c).2 = true ∧
    ((g.block_path p).cell_at c).path = false := by
  unfold grid.block_path
  rw [grid.is_blocked_val, grid.cell_at_set_blocked_list, if_pos h,
    grid.cell_at_set_path_list, if_pos h]
  simp

/-- Witness for C4 on a concrete two-coordinate path. -/
theorem spec_c4_block_path_witness :
    ((⟨1, 2, 0⟩ : vector3d) ∈ ([⟨0, 0, 0⟩, ⟨1, 2, 0⟩] : List vector3d)) ∧
    (((defaultGrid.block_path [⟨0, 0, 0⟩, ⟨1, 2, 0⟩]).is_blocked ⟨1, 2, 0⟩).2 = true ∧
      ((defaultGrid.block_path [⟨0, 0, 0⟩, ⟨1, 2, 0⟩]).cell_at ⟨1, 2, 0⟩).path = false) :=
  ⟨by decide, spec_c4_block_path defaultGrid _ _ (by decide)⟩

/-- C5: on a collection, `is_blocked` returns the logical OR of the blocked
flags of the elements' cells, never-materialized elements counting as
false, and it returns false on the empty collection. -/
theorem spec_c5_is_blocked_collection_or :
    (∀ (g : grid) (l : List vector3d),
      (g.is_blocked_list l).2 = l.any (fun c => (g.cell_at c).blocked)) ∧
    ∀ g : grid, (g.is_blocked_list []).2 = false :=
  ⟨fun g l => grid.is_blocked_list_val l g, fun _ => rfl⟩

/-- C6: reading `is_blocked` at a never-touched coordinate returns false and
materializes the coordinate as a cell with all four flags false. -/
theorem spec_c6_lazy_default_false (g : grid) (c : vector3d) (h : g.map c = none) :
    (g.is_blocked c).2 = false ∧
    (g.is_blocked c).1.map c =
      some { blocked := false, path := false, source := false, target := false } := by
  constructor
  · rw [grid.is_blocked_val]
    unfold grid.cell_at
    rw [h]
    rfl
  · rw [grid.is_blocked_state]
    unfold grid.add_map
    rw [h]
    simp

/-- Witness for C6 at a concrete untouched coordinate of a fresh grid. -/
theorem spec_c6_lazy_default_false_witness :
    defaultGrid.map ⟨5, 7, 0⟩ = none ∧
    ((defaultGrid.is_blocked ⟨5, 7, 0⟩).2 = false ∧
      (defaultGrid.is_blocked ⟨5, 7, 0⟩).1.map ⟨5, 7, 0⟩ =
        some { blocked := false, path := false, source := false, target := false }) :=
  ⟨rfl, spec_c6_lazy_default_false defaultGrid _ rfl⟩

/-- C7: the class-level cost constants are VIA_COST = 2, PREFERRED_COST = 1,
NONPREFERRED_COST = 4, and NONPREFERRED_COST < 2 * VIA_COST +
PREFERRED_COST. -/
theorem spec_c7_cost_constants :
    grid.VIA_COST = 2 ∧ grid.PREFERRED_COST = 1 ∧ grid.NONPREFERRED_COST = 4 ∧
    grid.NONPREFERRED_COST < 2 * grid.VIA_COST + grid.PREFERRED_COST := by
  refine ⟨rfl, rfl, rfl, ?_⟩
  norm_num [grid.NONPREFERRED_COST, grid.VIA_COST, grid.PREFERRED_COST]

/-- C8 counterexample: the claim demands that construction fail for every
track pitch <= 0, but with the concrete pitch -1 (which is <= 0)
construction succeeds. -/
theorem spec_c8_negative_pitch_counterexample :
    ((-1 : ℚ) ≤ 0) ∧ (grid_init 0 0 1 1 (-1)).isSome = true := by
  constructor
  · norm_num
  · unfold grid_init
    rw [if_neg (by norm_num)]
    rfl

/-- C8 amended: construction fails fast exactly when the track pitch is 0
(the `1 / track_width` division raises ZeroDivisionError); a negative pitch
is accepted silently, so the precondition `trackPitch > 0` is not otherwise
enforced at construction time. -/
theorem spec_c8_pitch_amended (llx lly urx ury tw : ℚ) :
    grid_init llx lly urx ury tw = none ↔ tw = 0 := by
  unfold grid_init
  split <;> simp_all

/-- C9: for a side argument outside the five recognized strings,
`add_perimeter_target` raises no error and leaves the entire grid state
unchanged. -/
theorem spec_c9_invalid_side_noop (g : grid) (side : String)
    (h : side ∉ (["all", "left", "right", "top", "bottom"] : List String)) :
    g.add_perimeter_target side = g := by
  simp only [List.mem_cons, List.not_mem_nil, or_false, not_or] at h
  obtain ⟨h1, h2, h3, h4, h5⟩ := h
  unfold grid.add_perimeter_target grid.perimeter_list
  rw [if_neg (by simp [h1, h2]), if_neg (by simp [h1, h3]), if_neg (by simp [h1, h5]),
    if_neg (by simp [h1, h4])]
  rfl

/-- Witness for C9 with a concrete misspelled side string. -/
theorem spec_c9_invalid_side_noop_witness :
    ("perimeter" ∉ (["all", "left", "right", "top", "bottom"] : List String)) ∧
    defaultGrid.add_perimeter_target "perimeter" = defaultGrid :=
  ⟨by decide, spec_c9_invalid_side_noop defaultGrid "perimeter" (by decide)⟩

/-- C10: `clear_source()` leaves every cell's blocked, path and target flags,
the cached target set, and the key set of the map unchanged while resetting
all source flags and emptying the source set; symmetrically for
`clear_target()`. -/
theorem spec_c10_clear_frame (g : grid) (c : vector3d) :
    (((g.clear_source).cell_at c).blocked = (g.cell_at c).blocked ∧
      ((g.clear_source).cell_at c).path = (g.cell_at c).path ∧
      ((g.clear_source).cell_at c).target = (g.cell_at c).target ∧
      (g.clear_source).target = g.target ∧
      ((g.clear_source).map c).isSome = (g.map c).isSome ∧
      ((g.clear_source).cell_at c).source = false ∧
      (g.clear_source).source = ∅) ∧
    (((g.clear_target).cell_at c).blocked = (g.cell_at c).blocked ∧
      ((g.clear_target).cell_at c).path = (g.cell_at c).path ∧
      ((g.clear_target).cell_at c).source = (g.cell_at c).source ∧
      (g.clear_target).source = g.source ∧
      ((g.clear_target).map c).isSome = (g.map c).isSome ∧
      ((g.clear_target).cell_at c).target = false ∧
      (g.clear_target).target = ∅) := by
  refine ⟨⟨?_, ?_, ?_, rfl, g.isSome_map_clear_source c, ?_, rfl⟩,
    ?_, ?_, ?_, rfl, g.isSome_map_clear_target c, ?_, rfl⟩ <;>
    simp [grid.cell_at_clear_source, grid.cell_at_clear_target]
